import Mathlib

/-!
Shallow embedding of the authentication and token-verification core of the
`bons` backend: `backend/app/utils/auth.py` (token codec) and
`backend/app/routes/auth.py` (register, login, auth gate, email-verification
lifecycle).

Modelling choices:
* A JWT is modelled as the pair of its claims mapping and the secret it was
  signed with; `jwtDecode` succeeds exactly when the presented secret equals
  the signing secret (HMAC tamper-evidence) and python-jose's default
  registered-claim validations pass: `exp` and `nbf` must be integers (or
  integer strings) with `exp < now` and `nbf > now` rejected, `iat` must be
  an integer when present, `sub` and `jti` must be strings when present, and
  `aud` or `at_hash` claims are rejected outright because this codebase calls
  `jwt.decode` with no audience or access-token argument. Python's `int(...)`
  string coercion is modelled by `String.toInt?`.
* Timestamps and durations are `Int` seconds since the epoch; the current time
  is an explicit argument everywhere the Python code calls `datetime.now`.
* A claims dict is an association list with dict semantics (`getClaim` finds
  the first binding, `setClaim` replaces in place or appends).
* The user store is a `List User`; SQLAlchemy `select ... scalar_one_or_none`
  becomes `List.find?`, and in-place ORM mutation plus `flush` becomes
  `updateUser`, which replaces the record with the matching id.
* `passlib`'s hash and verify are third-party code, so they are passed in as
  opaque function parameters where a route calls them.
* Route handlers return the pair of an `ApiResult` (an `HTTPException` with
  status code and detail, or the success payload) and the resulting store.
-/

namespace Bons

/-- A claim value as it appears in this backend's JWT payloads: the claims
used are strings (`sub`, `type`) and integers (`user_id`, and `exp` as a Unix
timestamp). -/
inductive JValue where
  | str : String → JValue
  | num : Int → JValue
deriving DecidableEq

/-- A JWT claims payload: a mapping from claim names to values, modelled as an
association list with dict semantics. -/
abbrev Claims := List (String × JValue)

/-- `payload.get(k)`: the value bound to the first occurrence of key `k`. -/
def getClaim : Claims → String → Option JValue
  | [], _ => none
  | (k', v') :: rest, k => if k' = k then some v' else getClaim rest k

/-- `payload.update({k: v})`: replace the binding of `k` in place, or append
it when absent. -/
def setClaim : Claims → String → JValue → Claims
  | [], k, v => [(k, v)]
  | (k', v') :: rest, k, v =>
      if k' = k then (k, v) :: rest else (k', v') :: setClaim rest k v

/-- An encoded JWT: the claims it carries together with the secret it was
signed with. The signature is tamper-evident, so a token value determines both
components. -/
structure Token where
  claims : Claims
  secret : String
deriving DecidableEq

/-- `jwt.encode(payload, secret, algorithm)`. -/
def jwtEncode (payload : Claims) (secret : String) : Token :=
  { claims := payload, secret := secret }

/-- Python's `int(...)` coercion as python-jose applies it to the numeric
registered claims (`exp`, `nbf`, `iat`): an integer passes through, a string
is parsed as a signed decimal integer (`String.toInt?`), and any other value
fails. -/
def intable : JValue → Option Int
  | JValue.num n => some n
  | JValue.str s => s.toInt?

/-- jose `_validate_iat`: an `iat` claim, when present, must coerce to an
integer; no time comparison is made. -/
def validate_iat (c : Claims) : Bool :=
  match getClaim c "iat" with
  | none => true
  | some v => (intable v).isSome

/-- jose `_validate_nbf`: an `nbf` claim, when present, must coerce to an
integer and must not lie in the future (`nbf > now` is rejected). -/
def validate_nbf (c : Claims) (now : Int) : Bool :=
  match getClaim c "nbf" with
  | none => true
  | some v =>
      match intable v with
      | none => false
      | some n => !(decide (now < n))

/-- jose `_validate_exp`: an `exp` claim, when present, must coerce to an
integer and must not have passed (`exp < now` is rejected). -/
def validate_exp (c : Claims) (now : Int) : Bool :=
  match getClaim c "exp" with
  | none => true
  | some v =>
      match intable v with
      | none => false
      | some e => !(decide (e < now))

/-- jose `_validate_aud` under this codebase's calls (`audience=None`): an
`aud` claim present in the payload is always rejected — `None` is not among
the audience strings, and a non-string `aud` is an invalid claim format. -/
def validate_aud (c : Claims) : Bool :=
  (getClaim c "aud").isNone

/-- jose `_validate_sub`: a `sub` claim, when present, must be a string. -/
def validate_sub (c : Claims) : Bool :=
  match getClaim c "sub" with
  | none => true
  | some (JValue.str _) => true
  | some _ => false

/-- jose `_validate_jti`: a `jti` claim, when present, must be a string. -/
def validate_jti (c : Claims) : Bool :=
  match getClaim c "jti" with
  | none => true
  | some (JValue.str _) => true
  | some _ => false

/-- jose `_validate_at_hash` under this codebase's calls
(`access_token=None`): an `at_hash` claim present in the payload is always
rejected, since there is no access token to compare against. -/
def validate_at_hash (c : Claims) : Bool :=
  (getClaim c "at_hash").isNone

/-- jose `_validate_claims` as invoked by both `decode_access_token` and
`verify_verification_token` (`jwt.decode(token, SECRET_KEY,
algorithms=[ALGORITHM])`: default options, no audience, issuer, subject, or
access token): the registered-claim validations run on every decode. `iss` is
never checked because no issuer argument is passed. -/
def validate_claims (c : Claims) (now : Int) : Bool :=
  validate_iat c && validate_nbf c now && validate_exp c now &&
    validate_aud c && validate_sub c && validate_jti c && validate_at_hash c

/-- `jwt.decode(token, secret, algorithms)`: fails (raises a `JWTError`
subclass, here `none`) when the signature was made with a different secret or
when any default registered-claim validation fails; otherwise returns the
full claims payload. -/
def jwtDecode (t : Token) (secret : String) (now : Int) : Option Claims :=
  if t.secret = secret then
    if validate_claims t.claims now then some t.claims else none
  else none

/-- `ACCESS_TOKEN_EXPIRE_MINUTES = 30` from `utils/auth.py`. -/
def ACCESS_TOKEN_EXPIRE_MINUTES : Int := 30

/-- `settings.verification_token_expire_hours` (default 24) from `config.py`. -/
def verification_token_expire_hours : Int := 24

/-- `create_access_token(data, expires_delta)` from `utils/auth.py`: copy the
claims, set `exp` to `now + expires_delta` (or `now + 30 minutes` when no
delta is given) and sign. `expires_delta` is in seconds. -/
def create_access_token (data : Claims) (expires_delta : Option Int)
    (now : Int) (secret : String) : Token :=
  let expire : Int :=
    match expires_delta with
    | some d => now + d
    | none => now + ACCESS_TOKEN_EXPIRE_MINUTES * 60
  jwtEncode (setClaim data "exp" (JValue.num expire)) secret

/-- `decode_access_token(token)` from `utils/auth.py`: decode and verify,
returning `none` on any `JWTError`. -/
def decode_access_token (token : Token) (now : Int) (secret : String) :
    Option Claims :=
  jwtDecode token secret now

/-- `create_verification_token(user_id, email)` from `utils/auth.py`: sign
`{sub: email, user_id, type: "email_verification", exp: now + 24h}`. -/
def create_verification_token (user_id : Int) (email : String)
    (now : Int) (secret : String) : Token :=
  let expire := now + verification_token_expire_hours * 3600
  jwtEncode
    [("sub", JValue.str email),
     ("user_id", JValue.num user_id),
     ("type", JValue.str "email_verification"),
     ("exp", JValue.num expire)]
    secret

/-- `verify_verification_token(token)` from `utils/auth.py`: decode, then
reject any payload whose `type` claim is not exactly `"email_verification"`. -/
def verify_verification_token (token : Token) (now : Int) (secret : String) :
    Option Claims :=
  match jwtDecode token secret now with
  | none => none
  | some payload =>
      if getClaim payload "type" = some (JValue.str "email_verification") then
        some payload
      else none

/-- A row of the `users` table (`models/database.py`), restricted to the
fields the auth core reads and writes. -/
structure User where
  id : Int
  email : String
  username : String
  hashed_password : String
  email_verified : Bool
  verification_token : Option Token
  verification_token_expires : Option Int
deriving DecidableEq

/-- The user store; `select(User).where(...)` with `scalar_one_or_none`
becomes `List.find?` (the columns queried are unique-indexed). -/
abbrev Store := List User

/-- `get_user_by_username` from `routes/auth.py`. -/
def get_user_by_username (db : Store) (username : String) : Option User :=
  db.find? (fun u => u.username == username)

/-- `get_user_by_email` from `routes/auth.py`. -/
def get_user_by_email (db : Store) (email : String) : Option User :=
  db.find? (fun u => u.email == email)

/-- `select(User).where(User.id == user_id)` in `verify_email`. -/
def get_user_by_id (db : Store) (user_id : Int) : Option User :=
  db.find? (fun u => u.id == user_id)

/-- ORM mutation followed by `flush`: the record with the matching primary key
is replaced by its updated value. -/
def updateUser (db : Store) (u : User) : Store :=
  db.map (fun x => if x.id == u.id then u else x)

/-- `MessageResponse` from `models/schemas.py`. -/
structure MessageResponse where
  message : String
  success : Bool
deriving DecidableEq

/-- The outcome of a route handler: the success payload, or the
`HTTPException` status code and detail it raises. -/
inductive ApiResult (α : Type) where
  | ok : α → ApiResult α
  | error : Int → String → ApiResult α
deriving DecidableEq

/-- `authenticate_user(db, username, password)` from `routes/auth.py`.
`verify_password` delegates to passlib, so it is taken as a parameter `vp`. -/
def authenticate_user (vp : String → String → Bool) (db : Store)
    (username password : String) : Option User :=
  match get_user_by_username db username with
  | none => none
  | some user => if vp password user.hashed_password then some user else none

/-- `get_current_user` from `routes/auth.py` (the Auth Gate): decode the
bearer token as an access token; reject (`none`, a 401) when decoding fails,
when the `sub` or `user_id` claim is absent, or when no user has the `sub`
username. A non-string `sub` matches no `username` column and is likewise
rejected. -/
def get_current_user (token : Token) (db : Store) (now : Int)
    (secret : String) : Option User :=
  match decode_access_token token now secret with
  | none => none
  | some payload =>
      match getClaim payload "sub", getClaim payload "user_id" with
      | some (JValue.str username), some _ => get_user_by_username db username
      | _, _ => none

/-- `register` from `routes/auth.py`: reject a taken username or email,
otherwise insert the user (id assigned by the store, passed as `newId`) with
`email_verified = False`, then create a verification token and store it
together with its absolute expiry. `get_password_hash` delegates to passlib,
so it is taken as a parameter `hashPw`. Mail delivery is fire-and-forget and
does not affect the result. -/
def register (email username password : String) (hashPw : String → String)
    (newId : Int) (db : Store) (now : Int) (secret : String) :
    ApiResult User × Store :=
  if (get_user_by_username db username).isSome then
    (ApiResult.error 400 "Username already registered", db)
  else if (get_user_by_email db email).isSome then
    (ApiResult.error 400 "Email already registered", db)
  else
    let hashed := hashPw password
    let verification_token := create_verification_token newId email now secret
    let db_user : User :=
      { id := newId
        email := email
        username := username
        hashed_password := hashed
        email_verified := false
        verification_token := some verification_token
        verification_token_expires :=
          some (now + verification_token_expire_hours * 3600) }
    (ApiResult.ok db_user, db ++ [db_user])

/-- `login` from `routes/auth.py`: authenticate, raise 401 with the single
message "Incorrect username or password" on failure, otherwise issue an
access token `{sub: username, user_id}` with a 30-minute expiry. Login never
writes to the store, so the store is returned unchanged. -/
def login (vp : String → String → Bool) (db : Store)
    (username password : String) (now : Int) (secret : String) :
    ApiResult Token × Store :=
  match authenticate_user vp db username password with
  | none =>
      (ApiResult.error 401 "Incorrect username or password", db)
  | some user =>
      let access_token :=
        create_access_token
          [("sub", JValue.str user.username), ("user_id", JValue.num user.id)]
          (some (ACCESS_TOKEN_EXPIRE_MINUTES * 60)) now secret
      (ApiResult.ok access_token, db)

/-- The user lookup inside `verify_email`: `payload.get("user_id")` fed to
`select(User).where(User.id == user_id)` — a missing or non-numeric
`user_id` claim matches no row. -/
def lookup_embedded_user (db : Store) (payload : Claims) : Option User :=
  match getClaim payload "user_id" with
  | some (JValue.num i) => get_user_by_id db i
  | _ => none

/-- `verify_email` from `routes/auth.py`: parse as verification kind (400 on
failure); load the user by the embedded `user_id` (404 when absent); 400 when
the embedded `sub` differs from the user's email; success no-op when already
verified; 400 when the stored expiry has passed (a `None` stored expiry skips
the check); otherwise set `email_verified` and clear both stored token
fields. -/
def verify_email (token : Token) (db : Store) (now : Int) (secret : String) :
    ApiResult MessageResponse × Store :=
  match verify_verification_token token now secret with
  | none =>
      (ApiResult.error 400 "Invalid or expired verification token", db)
  | some payload =>
      match lookup_embedded_user db payload with
      | none => (ApiResult.error 404 "User not found", db)
      | some user =>
          if getClaim payload "sub" ≠ some (JValue.str user.email) then
            (ApiResult.error 400 "Invalid verification token", db)
          else if user.email_verified then
            (ApiResult.ok { message := "Email already verified", success := true }, db)
          else
            match user.verification_token_expires with
            | some e =>
                if e < now then
                  (ApiResult.error 400
                    "Verification token has expired. Please request a new one.", db)
                else
                  (ApiResult.ok
                    { message := "Email verified successfully! You can now use all features."
                      success := true },
                   updateUser db
                     { user with
                         email_verified := true
                         verification_token := none
                         verification_token_expires := none })
            | none =>
                (ApiResult.ok
                  { message := "Email verified successfully! You can now use all features."
                    success := true },
                 updateUser db
                   { user with
                       email_verified := true
                       verification_token := none
                       verification_token_expires := none })

/-- `resend_verification_email` from `routes/auth.py`: an unknown email gets
the generic success message and no mutation; a verified user gets a 400;
otherwise a fresh verification token overwrites the stored one together with
a fresh expiry. Mail delivery is fire-and-forget. -/
def resend_verification_email (email : String) (db : Store) (now : Int)
    (secret : String) : ApiResult MessageResponse × Store :=
  match get_user_by_email db email with
  | none =>
      (ApiResult.ok
        { message := "If the email exists, a verification link has been sent."
          success := true }, db)
  | some user =>
      if user.email_verified then
        (ApiResult.error 400 "Email is already verified", db)
      else
        (ApiResult.ok
          { message := "Verification email sent. Please check your inbox."
            success := true },
         updateUser db
           { user with
               verification_token :=
                 some (create_verification_token user.id user.email now secret)
               verification_token_expires :=
                 some (now + verification_token_expire_hours * 3600) })

end Bons
namespace Bons

theorem getClaim_setClaim_self (c : Claims) (k : String) (v : JValue) :
    getClaim (setClaim c k v) k = some v := by
  induction c with
  | nil => simp [setClaim, getClaim]
  | cons hd tl ih =>
      by_cases h : hd.1 = k
      · simp [setClaim, getClaim, h]
      · simp [setClaim, getClaim, h, ih]

theorem getClaim_setClaim_ne (c : Claims) (k : String) (v : JValue)
    (k' : String) (hne : k ≠ k') :
    getClaim (setClaim c k v) k' = getClaim c k' := by
  induction c with
  | nil => simp [setClaim, getClaim, hne]
  | cons hd tl ih =>
      by_cases h : hd.1 = k
      · simp [setClaim, getClaim, h, hne]
      · simp only [setClaim, getClaim, if_neg h]
        by_cases h2 : hd.1 = k'
        · simp [h2]
        · simp [h2, ih]

theorem jwtDecode_eq_claims {t : Token} {secret : String} {now : Int}
    {p : Claims} (h : jwtDecode t secret now = some p) : p = t.claims := by
  unfold jwtDecode at h
  split at h
  · split at h
    · exact (Option.some.inj h).symm
    · exact absurd h (by simp)
  · exact absurd h (by simp)

theorem validate_iat_setClaim (c : Claims) (k : String) (v : JValue)
    (h : k ≠ "iat") : validate_iat (setClaim c k v) = validate_iat c := by
  unfold validate_iat
  rw [getClaim_setClaim_ne c k v "iat" h]

theorem validate_nbf_setClaim (c : Claims) (k : String) (v : JValue)
    (now : Int) (h : k ≠ "nbf") :
    validate_nbf (setClaim c k v) now = validate_nbf c now := by
  unfold validate_nbf
  rw [getClaim_setClaim_ne c k v "nbf" h]

theorem validate_aud_setClaim (c : Claims) (k : String) (v : JValue)
    (h : k ≠ "aud") : validate_aud (setClaim c k v) = validate_aud c := by
  unfold validate_aud
  rw [getClaim_setClaim_ne c k v "aud" h]

theorem validate_sub_setClaim (c : Claims) (k : String) (v : JValue)
    (h : k ≠ "sub") : validate_sub (setClaim c k v) = validate_sub c := by
  unfold validate_sub
  rw [getClaim_setClaim_ne c k v "sub" h]

theorem validate_jti_setClaim (c : Claims) (k : String) (v : JValue)
    (h : k ≠ "jti") : validate_jti (setClaim c k v) = validate_jti c := by
  unfold validate_jti
  rw [getClaim_setClaim_ne c k v "jti" h]

theorem validate_at_hash_setClaim (c : Claims) (k : String) (v : JValue)
    (h : k ≠ "at_hash") :
    validate_at_hash (setClaim c k v) = validate_at_hash c := by
  unfold validate_at_hash
  rw [getClaim_setClaim_ne c k v "at_hash" h]

/-- C5 counterexample: the universally-quantified round-trip fails — a
claims mapping with a numeric `sub`, or with an `aud` claim, signs fine under
`create_access_token` with `ttl = 60 > 0` but decodes to `none` under the
same secret immediately after signing, because `jwt.decode`'s default
registered-claim validations reject the payload. -/
theorem C5_counterexample :
    decode_access_token
        (create_access_token [("sub", JValue.num 1)] (some 60) 0 "sk") 0 "sk"
      = none
    ∧ decode_access_token
        (create_access_token [("aud", JValue.str "x")] (some 60) 0 "sk") 0 "sk"
      = none := by
  decide

/-- C5 amended: for every claims mapping `c` that passes `jwt.decode`'s
default registered-claim validations — any `sub` or `jti` claim is a string,
no `aud` or `at_hash` claim is present, any `iat` claim is numeric, any
`nbf` claim is numeric and not in the future — and every `ttl > 0`, decoding
the token produced by `create_access_token c ttl` immediately after signing
and under the same secret succeeds, and the resulting claims agree with `c`
on every key other than `exp` while `exp` carries the computed expiry
`now + ttl`. -/
theorem C5_sign_parse_roundtrip_validated (c : Claims) (ttl now : Int)
    (secret : String) (httl : 0 < ttl)
    (hiat : validate_iat c = true) (hnbf : validate_nbf c now = true)
    (haud : validate_aud c = true) (hsub : validate_sub c = true)
    (hjti : validate_jti c = true) (hat : validate_at_hash c = true) :
    decode_access_token (create_access_token c (some ttl) now secret) now secret
      = some (setClaim c "exp" (JValue.num (now + ttl)))
    ∧ getClaim (setClaim c "exp" (JValue.num (now + ttl))) "exp"
      = some (JValue.num (now + ttl))
    ∧ ∀ k, k ≠ "exp" →
        getClaim (setClaim c "exp" (JValue.num (now + ttl))) k = getClaim c k := by
  refine ⟨?_, getClaim_setClaim_self c _ _,
    fun k hk => getClaim_setClaim_ne c _ _ k (fun h => hk h.symm)⟩
  have hexp : validate_exp (setClaim c "exp" (JValue.num (now + ttl))) now
      = true := by
    unfold validate_exp intable
    rw [getClaim_setClaim_self]
    have h1 : ¬ (now + ttl < now) := by omega
    simp [h1]
  simp only [decode_access_token, create_access_token, jwtDecode, jwtEncode,
    validate_claims]
  rw [validate_iat_setClaim c "exp" (JValue.num (now + ttl)) (by decide),
      validate_nbf_setClaim c "exp" (JValue.num (now + ttl)) now (by decide),
      validate_aud_setClaim c "exp" (JValue.num (now + ttl)) (by decide),
      validate_sub_setClaim c "exp" (JValue.num (now + ttl)) (by decide),
      validate_jti_setClaim c "exp" (JValue.num (now + ttl)) (by decide),
      validate_at_hash_setClaim c "exp" (JValue.num (now + ttl)) (by decide),
      hexp, hiat, hnbf, haud, hsub, hjti, hat]
  simp

/-- C5 amended witness: the validated round-trip theorem applied at the
access-token claims shape this backend actually signs (`sub` string,
`user_id` number) with `ttl = 60`. -/
theorem C5_sign_parse_roundtrip_validated_witness :
    decode_access_token
        (create_access_token [("sub", JValue.str "alice"), ("user_id", JValue.num 1)]
          (some 60) 1000 "sk") 1000 "sk"
      = some (setClaim [("sub", JValue.str "alice"), ("user_id", JValue.num 1)]
          "exp" (JValue.num (1000 + 60))) :=
  (C5_sign_parse_roundtrip_validated
    [("sub", JValue.str "alice"), ("user_id", JValue.num 1)] 60 1000 "sk"
    (by decide) (by decide) (by decide) (by decide) (by decide) (by decide)
    (by decide)).1

end Bons
namespace Bons

theorem decode_access_token_eq_claims {t : Token} {now : Int} {secret : String}
    {p : Claims} (h : decode_access_token t now secret = some p) : p = t.claims :=
  jwtDecode_eq_claims h

theorem decode_wrong_secret (payload : Claims) (tnow : Int) (s1 s2 : String)
    (hne : s1 ≠ s2) : jwtDecode (jwtEncode payload s1) s2 tnow = none := by
  simp [jwtDecode, jwtEncode, hne]

/-- C6: rejection with no partial result — a token signed under one secret
decodes to `none` under any different secret and is rejected by the Auth
Gate, and a token signed with `ttl = -1` (embedded expiry already passed)
decodes to `none` at any time at or after signing and is likewise rejected
by the Auth Gate. -/
theorem C6_bad_token_rejected :
    (∀ (c : Claims) (d : Option Int) (now tnow : Int) (s1 s2 : String),
      s1 ≠ s2 →
      decode_access_token (create_access_token c d now s1) tnow s2 = none)
    ∧ (∀ (c : Claims) (d : Option Int) (now tnow : Int) (s1 s2 : String)
        (db : Store), s1 ≠ s2 →
      get_current_user (create_access_token c d now s1) db tnow s2 = none)
    ∧ (∀ (c : Claims) (now tnow : Int) (secret : String), now ≤ tnow →
      decode_access_token (create_access_token c (some (-1)) now secret) tnow secret
        = none)
    ∧ (∀ (c : Claims) (now tnow : Int) (secret : String) (db : Store),
      now ≤ tnow →
      get_current_user (create_access_token c (some (-1)) now secret) db tnow secret
        = none) := by
  have h1 : ∀ (c : Claims) (d : Option Int) (now tnow : Int) (s1 s2 : String),
      s1 ≠ s2 →
      decode_access_token (create_access_token c d now s1) tnow s2 = none := by
    intro c d now tnow s1 s2 hne
    unfold decode_access_token create_access_token
    exact decode_wrong_secret _ _ _ _ hne
  have h3 : ∀ (c : Claims) (now tnow : Int) (secret : String), now ≤ tnow →
      decode_access_token (create_access_token c (some (-1)) now secret) tnow secret
        = none := by
    intro c now tnow secret hle
    have hexp : validate_exp (setClaim c "exp" (JValue.num (now + (-1)))) tnow
        = false := by
      unfold validate_exp intable
      rw [getClaim_setClaim_self]
      have hlt : now + (-1) < tnow := by omega
      simp [hlt]
    simp only [decode_access_token, create_access_token, jwtDecode, jwtEncode,
      validate_claims]
    rw [hexp]
    simp
  refine ⟨h1, ?_, h3, ?_⟩
  · intro c d now tnow s1 s2 db hne
    unfold get_current_user
    rw [h1 c d now tnow s1 s2 hne]
  · intro c now tnow secret db hle
    unfold get_current_user
    rw [h3 c now tnow secret hle]

/-- C6 witness: the rejection theorem applied at concrete inputs — two
distinct secrets, and a concrete token signed with `ttl = -1`. -/
theorem C6_bad_token_rejected_witness :
    decode_access_token
        (create_access_token [("sub", JValue.str "a")] (some 60) 0 "s1") 0 "s2"
      = none
    ∧ get_current_user
        (create_access_token [("sub", JValue.str "a")] (some 60) 0 "s1") [] 0 "s2"
      = none
    ∧ decode_access_token
        (create_access_token [("sub", JValue.str "a")] (some (-1)) 0 "sk") 0 "sk"
      = none
    ∧ get_current_user
        (create_access_token [("sub", JValue.str "a")] (some (-1)) 0 "sk") [] 0 "sk"
      = none :=
  ⟨C6_bad_token_rejected.1 _ _ 0 0 "s1" "s2" (by decide),
   C6_bad_token_rejected.2.1 _ _ 0 0 "s1" "s2" [] (by decide),
   C6_bad_token_rejected.2.2.1 _ 0 0 "sk" (by decide),
   C6_bad_token_rejected.2.2.2 _ 0 0 "sk" [] (by decide)⟩

end Bons
namespace Bons

theorem find?_eq_none_of_username_ne {db : Store} {uname : String}
    (h : ∀ u ∈ db, u.username ≠ uname) :
    get_user_by_username db uname = none := by
  unfold get_user_by_username
  rw [List.find?_eq_none]
  intro u hu
  simpa using h u hu

/-- A concrete user record used to instantiate theorems with hypotheses. -/
def bobUser : User :=
  { id := 1, email := "bob@x.com", username := "bob",
    hashed_password := "h", email_verified := false,
    verification_token := none, verification_token_expires := none }

/-- C7: the Auth Gate rejects a token whose claims lack the `sub` field or
lack the `user_id` field, and rejects a token whose string `sub` names a
username carried by no user in the store (the lookup is by username, so a
`user_id` matching some record does not help). -/
theorem C7_gate_missing_claims_rejected :
    (∀ (t : Token) (db : Store) (now : Int) (secret : String),
      getClaim t.claims "sub" = none →
      get_current_user t db now secret = none)
    ∧ (∀ (t : Token) (db : Store) (now : Int) (secret : String),
      getClaim t.claims "user_id" = none →
      get_current_user t db now secret = none)
    ∧ (∀ (t : Token) (db : Store) (now : Int) (secret : String)
        (uname : String),
      getClaim t.claims "sub" = some (JValue.str uname) →
      (∀ u ∈ db, u.username ≠ uname) →
      get_current_user t db now secret = none) := by
  refine ⟨?_, ?_, ?_⟩
  · intro t db now secret hsub
    unfold get_current_user
    cases hdec : decode_access_token t now secret with
    | none => rfl
    | some p =>
        have hp : p = t.claims := decode_access_token_eq_claims hdec
        subst hp
        simp [hsub]
  · intro t db now secret hid
    unfold get_current_user
    cases hdec : decode_access_token t now secret with
    | none => rfl
    | some p =>
        have hp : p = t.claims := decode_access_token_eq_claims hdec
        subst hp
        rcases hsubv : getClaim t.claims "sub" with _ | v
        · simp [hsubv]
        · cases v with
          | str s => simp [hsubv, hid]
          | num n => simp [hsubv]
  · intro t db now secret uname hsub hnone
    unfold get_current_user
    cases hdec : decode_access_token t now secret with
    | none => rfl
    | some p =>
        have hp : p = t.claims := decode_access_token_eq_claims hdec
        subst hp
        rcases hidv : getClaim t.claims "user_id" with _ | v
        · simp [hsub, hidv]
        · simp [hsub, hidv, find?_eq_none_of_username_ne hnone]

/-- C7 witness: concrete tokens missing `sub`, missing `user_id`, and naming
a username absent from a concrete one-user store, each rejected. -/
theorem C7_gate_missing_claims_rejected_witness :
    get_current_user (jwtEncode [("user_id", JValue.num 1)] "sk") [] 0 "sk" = none
    ∧ get_current_user (jwtEncode [("sub", JValue.str "alice")] "sk") [] 0 "sk" = none
    ∧ get_current_user
        (jwtEncode [("sub", JValue.str "alice"), ("user_id", JValue.num 1)] "sk")
        [bobUser] 0 "sk" = none :=
  ⟨C7_gate_missing_claims_rejected.1 _ [] 0 "sk" (by decide),
   C7_gate_missing_claims_rejected.2.1 _ [] 0 "sk" (by decide),
   C7_gate_missing_claims_rejected.2.2 _ [bobUser] 0 "sk" "alice" (by decide)
     (by intro u hu; simp at hu; subst hu; decide)⟩

/-- C9: login does not enumerate accounts — an unknown username and a known
username with a failing password check produce the identical 401 outcome with
the identical message, and in both cases the store is returned unchanged. -/
theorem C9_login_no_enumeration :
    (∀ (vp : String → String → Bool) (db : Store)
        (username password : String) (now : Int) (secret : String),
      get_user_by_username db username = none →
      login vp db username password now secret
        = (ApiResult.error 401 "Incorrect username or password", db))
    ∧ (∀ (vp : String → String → Bool) (db : Store) (u : User)
        (username password : String) (now : Int) (secret : String),
      get_user_by_username db username = some u →
      vp password u.hashed_password = false →
      login vp db username password now secret
        = (ApiResult.error 401 "Incorrect username or password", db)) := by
  constructor
  · intro vp db username password now secret hnone
    unfold login authenticate_user
    rw [hnone]
  · intro vp db u username password now secret hsome hvp
    unfold login authenticate_user
    simp [hsome, hvp]

/-- C9 witness: the theorem applied to a concrete store with user `bob` — an
attempt with unknown username `alice` and an attempt with `bob` but a
rejected password get the same outcome. -/
theorem C9_login_no_enumeration_witness :
    login (fun _ _ => false) [bobUser] "alice" "pw" 0 "sk"
      = (ApiResult.error 401 "Incorrect username or password", [bobUser])
    ∧ login (fun _ _ => false) [bobUser] "bob" "pw" 0 "sk"
      = (ApiResult.error 401 "Incorrect username or password", [bobUser]) :=
  ⟨C9_login_no_enumeration.1 (fun _ _ => false) [bobUser] "alice" "pw" 0 "sk"
     (by decide),
   C9_login_no_enumeration.2 (fun _ _ => false) [bobUser] bobUser "bob" "pw" 0 "sk"
     (by decide) rfl⟩

end Bons
namespace Bons

theorem find?_eq_none_of_email_ne {db : Store} {em : String}
    (h : ∀ u ∈ db, u.email ≠ em) :
    get_user_by_email db em = none := by
  unfold get_user_by_email
  rw [List.find?_eq_none]
  intro u hu
  simpa using h u hu

/-- C10: resend-verification for an email matching no user returns the
generic success response (`success = true`) and leaves the store unchanged;
for an existing but unverified user it likewise returns a success response
with `success = true`; and for a user whose email is already verified it
rejects with a 400 error instead of reissuing a token. -/
theorem C10_resend_hides_account_existence :
    (∀ (db : Store) (em : String) (now : Int) (secret : String),
      (∀ u ∈ db, u.email ≠ em) →
      resend_verification_email em db now secret
        = (ApiResult.ok
            { message := "If the email exists, a verification link has been sent."
              success := true }, db))
    ∧ (∀ (db : Store) (em : String) (u : User) (now : Int) (secret : String),
      get_user_by_email db em = some u →
      u.email_verified = false →
      (resend_verification_email em db now secret).1
        = ApiResult.ok
            { message := "Verification email sent. Please check your inbox."
              success := true })
    ∧ (∀ (db : Store) (em : String) (u : User) (now : Int) (secret : String),
      get_user_by_email db em = some u →
      u.email_verified = true →
      resend_verification_email em db now secret
        = (ApiResult.error 400 "Email is already verified", db)) := by
  refine ⟨?_, ?_, ?_⟩
  · intro db em now secret hnone
    unfold resend_verification_email
    rw [find?_eq_none_of_email_ne hnone]
  · intro db em u now secret hsome hver
    unfold resend_verification_email
    simp [hsome, hver]
  · intro db em u now secret hsome hver
    unfold resend_verification_email
    simp [hsome, hver]

/-- C10 witness: the theorem applied to a one-user store — an unknown email,
the unverified user `bob`, and a verified variant of `bob`. -/
theorem C10_resend_hides_account_existence_witness :
    resend_verification_email "nobody@x.com" [bobUser] 0 "sk"
      = (ApiResult.ok
          { message := "If the email exists, a verification link has been sent."
            success := true }, [bobUser])
    ∧ (resend_verification_email "bob@x.com" [bobUser] 0 "sk").1
      = ApiResult.ok
          { message := "Verification email sent. Please check your inbox."
            success := true }
    ∧ resend_verification_email "bob@x.com" [{ bobUser with email_verified := true }] 0 "sk"
      = (ApiResult.error 400 "Email is already verified",
         [{ bobUser with email_verified := true }]) :=
  ⟨C10_resend_hides_account_existence.1 [bobUser] "nobody@x.com" 0 "sk"
     (by intro u hu; simp at hu; subst hu; decide),
   C10_resend_hides_account_existence.2.1 [bobUser] "bob@x.com" bobUser 0 "sk"
     (by decide) rfl,
   C10_resend_hides_account_existence.2.2 [{ bobUser with email_verified := true }]
     "bob@x.com" { bobUser with email_verified := true } 0 "sk" (by decide) rfl⟩

end Bons
namespace Bons

/-- An opaque stand-in for passlib's salted hash, used to instantiate
scenario stores. -/
def hashFn : String → String := fun p => String.append "h:" p

/-- Registration of a user whose username is literally their email address
(the schema only requires a 3-to-50-character username, so this input is
accepted by `register`). -/
def selfNamedReg : ApiResult User × Store :=
  register "alice@x.com" "alice@x.com" "password123" hashFn 1 [] 0 "sk"

/-- The store after `selfNamedReg`. -/
def selfNamedDb : Store := selfNamedReg.2

/-- The verification token issued by `selfNamedReg` (as recomputed by
`create_verification_token` at the same instant). -/
def selfNamedVtok : Token := create_verification_token 1 "alice@x.com" 0 "sk"

/-- C2 counterexample: a validly signed, unexpired `email_verification`-kind
token is accepted, not rejected, by the access-token Auth Gate when a user's
username equals the token's embedded email — the gate never checks the `type`
tag, so kind exclusivity fails in that direction. -/
theorem C2_counterexample :
    verify_verification_token selfNamedVtok 0 "sk" ≠ none
    ∧ getClaim selfNamedVtok.claims "type" = some (JValue.str "email_verification")
    ∧ get_current_user selfNamedVtok selfNamedDb 0 "sk" ≠ none := by
  refine ⟨?_, by decide, ?_⟩ <;> decide

/-- C2 amended: parsing any token whose `type` claim is not exactly
`"email_verification"` as a verification token returns Invalid (this
direction of kind exclusivity holds); in the other direction the Auth Gate
performs no kind check, and a verification token is rejected only because its
`sub` is an email — whenever no user's username equals that email, the gate
rejects it. -/
theorem C2_kind_exclusivity_amended :
    (∀ (t : Token) (now : Int) (secret : String),
      getClaim t.claims "type" ≠ some (JValue.str "email_verification") →
      verify_verification_token t now secret = none)
    ∧ (∀ (uid : Int) (em : String) (db : Store) (now tnow : Int)
        (secret : String),
      (∀ u ∈ db, u.username ≠ em) →
      get_current_user (create_verification_token uid em now secret) db tnow secret
        = none) := by
  constructor
  · intro t now secret hne
    unfold verify_verification_token
    cases hdec : jwtDecode t secret now with
    | none => rfl
    | some p =>
        have hp : p = t.claims := jwtDecode_eq_claims hdec
        subst hp
        simp [hne]
  · intro uid em db now tnow secret hnone
    by_cases hexp : now + verification_token_expire_hours * 3600 < tnow
    · simp [get_current_user, decode_access_token, create_verification_token,
        jwtDecode, jwtEncode, validate_claims, validate_iat, validate_nbf,
        validate_exp, validate_aud, validate_sub, validate_jti,
        validate_at_hash, intable, getClaim, hexp]
    · simp [get_current_user, decode_access_token, create_verification_token,
        jwtDecode, jwtEncode, validate_claims, validate_iat, validate_nbf,
        validate_exp, validate_aud, validate_sub, validate_jti,
        validate_at_hash, intable, getClaim, hexp,
        find?_eq_none_of_username_ne hnone]

/-- C2 amended witness: an access-shaped token (no `type` claim) is rejected
by the verification parser, and a verification token for an email that no
username equals is rejected by the gate. -/
theorem C2_kind_exclusivity_amended_witness :
    verify_verification_token
        (jwtEncode [("sub", JValue.str "bob"), ("user_id", JValue.num 1)] "sk")
        0 "sk" = none
    ∧ get_current_user (create_verification_token 1 "alice@x.com" 0 "sk")
        [bobUser] 0 "sk" = none :=
  ⟨C2_kind_exclusivity_amended.1 _ 0 "sk" (by decide),
   C2_kind_exclusivity_amended.2 1 "alice@x.com" [bobUser] 0 0 "sk"
     (by intro u hu; simp at hu; subst hu; decide)⟩

end Bons
namespace Bons

theorem verify_verification_token_eq_claims {t : Token} {now : Int}
    {secret : String} {p : Claims}
    (h : verify_verification_token t now secret = some p) : p = t.claims := by
  unfold verify_verification_token at h
  cases hdec : jwtDecode t secret now with
  | none =>
      simp only [hdec] at h
      exact absurd h (by simp)
  | some q =>
      have hq : q = t.claims := jwtDecode_eq_claims hdec
      subst hq
      simp only [hdec] at h
      split at h
      · exact (Option.some.inj h).symm
      · exact absurd h (by simp)

/-- C3: consuming a verification token that parses, names an existing user,
and matches that user's email (a) when the user is unverified and the stored
expiry has not passed, sets `email_verified` and clears both stored token
fields, reporting success; and (b) when the user is already verified, returns
success as a no-op with the store unchanged. -/
theorem C3_consume_verifies_and_is_sticky :
    (∀ (db : Store) (u : User) (uid : Int) (t : Token) (now : Int)
        (secret : String),
      u.verification_token = some t →
      verify_verification_token t now secret ≠ none →
      getClaim t.claims "user_id" = some (JValue.num uid) →
      get_user_by_id db uid = some u →
      getClaim t.claims "sub" = some (JValue.str u.email) →
      u.email_verified = false →
      Option.all (fun e => decide (now ≤ e)) u.verification_token_expires = true →
      verify_email t db now secret
        = (ApiResult.ok
            { message := "Email verified successfully! You can now use all features."
              success := true },
           updateUser db
             { u with email_verified := true, verification_token := none,
                      verification_token_expires := none }))
    ∧ (∀ (db : Store) (u : User) (uid : Int) (t : Token) (now : Int)
        (secret : String),
      verify_verification_token t now secret ≠ none →
      getClaim t.claims "user_id" = some (JValue.num uid) →
      get_user_by_id db uid = some u →
      getClaim t.claims "sub" = some (JValue.str u.email) →
      u.email_verified = true →
      verify_email t db now secret
        = (ApiResult.ok { message := "Email already verified", success := true },
           db)) := by
  constructor
  · intro db u uid t now secret hstored hparse hid hfind hsub hver hexp
    unfold verify_email
    cases hv : verify_verification_token t now secret with
    | none => exact absurd hv hparse
    | some p =>
        have hp : p = t.claims := verify_verification_token_eq_claims hv
        subst hp
        rcases hvte : u.verification_token_expires with _ | e
        · simp [lookup_embedded_user, hid, hfind, hsub, hver, hvte]
        · have he : now ≤ e := by
            rw [hvte] at hexp
            simpa using hexp
          have hlt : ¬ e < now := not_lt.mpr he
          simp [lookup_embedded_user, hid, hfind, hsub, hver, hvte, hlt]
  · intro db u uid t now secret hparse hid hfind hsub hver
    unfold verify_email
    cases hv : verify_verification_token t now secret with
    | none => exact absurd hv hparse
    | some p =>
        have hp : p = t.claims := verify_verification_token_eq_claims hv
        subst hp
        simp [lookup_embedded_user, hid, hfind, hsub, hver]

/-- The verification token stored for the concrete user `carol`. -/
def carolTok : Token := create_verification_token 2 "carol@x.com" 0 "sk"

/-- A concrete unverified user holding `carolTok` and its expiry. -/
def carolUser : User :=
  { id := 2, email := "carol@x.com", username := "carol",
    hashed_password := "h", email_verified := false,
    verification_token := some carolTok,
    verification_token_expires := some 86400 }

/-- The store containing only `carolUser`. -/
def carolDb : Store := [carolUser]

/-- `carolUser` after successful verification. -/
def carolVerified : User :=
  { carolUser with email_verified := true, verification_token := none,
                   verification_token_expires := none }

/-- C3 witness: consuming `carolTok` at time 100 verifies `carol` and clears
the token fields, and consuming it again on the resulting store is a success
no-op. -/
theorem C3_consume_verifies_and_is_sticky_witness :
    verify_email carolTok carolDb 100 "sk"
      = (ApiResult.ok
          { message := "Email verified successfully! You can now use all features."
            success := true },
         updateUser carolDb carolVerified)
    ∧ verify_email carolTok (updateUser carolDb carolVerified) 100 "sk"
      = (ApiResult.ok { message := "Email already verified", success := true },
         updateUser carolDb carolVerified) :=
  ⟨C3_consume_verifies_and_is_sticky.1 carolDb carolUser 2 carolTok 100 "sk"
     rfl (by decide) (by decide) (by decide) (by decide) rfl (by decide),
   C3_consume_verifies_and_is_sticky.2 (updateUser carolDb carolVerified)
     carolVerified 2 carolTok 100 "sk"
     (by decide) (by decide) (by decide) (by decide) rfl⟩

end Bons
namespace Bons

/-- The User-record invariant of the spec: the stored verification token and
its expiry are both set or both unset, and a verified user has both cleared. -/
def userInv (u : User) : Prop :=
  (u.verification_token.isSome ↔ u.verification_token_expires.isSome)
  ∧ (u.email_verified = true →
      u.verification_token = none ∧ u.verification_token_expires = none)

/-- The invariant holds of every record in the store. -/
def storeInv (db : Store) : Prop := ∀ u ∈ db, userInv u

theorem mem_updateUser {db : Store} {u v : User}
    (h : v ∈ updateUser db u) : v ∈ db ∨ v = u := by
  unfold updateUser at h
  rcases List.mem_map.1 h with ⟨x, hxdb, hxe⟩
  by_cases hc : (x.id == u.id) = true
  · rw [if_pos hc] at hxe
    exact Or.inr hxe.symm
  · rw [if_neg hc] at hxe
    exact Or.inl (hxe ▸ hxdb)

theorem storeInv_updateUser {db : Store} {u : User}
    (hdb : storeInv db) (hu : userInv u) : storeInv (updateUser db u) := by
  intro v hv
  rcases mem_updateUser hv with h | h
  · exact hdb v h
  · exact h ▸ hu

/-- C4: every operation of the core preserves the invariant — register
inserts a record with both token fields set and `email_verified = false`;
login never writes; verify-email either leaves the store unchanged or clears
both fields while setting `email_verified`; resend either leaves the store
unchanged or overwrites both fields on a still-unverified record. -/
theorem C4_operations_preserve_invariant
    (vp : String → String → Bool) (hashPw : String → String) (db : Store)
    (email username password : String) (newId : Int) (t : Token)
    (now : Int) (secret : String) (hinv : storeInv db) :
    storeInv (register email username password hashPw newId db now secret).2
    ∧ storeInv (login vp db username password now secret).2
    ∧ storeInv (verify_email t db now secret).2
    ∧ storeInv (resend_verification_email email db now secret).2 := by
  refine ⟨?_, ?_, ?_, ?_⟩
  · unfold register
    split
    · exact hinv
    · split
      · exact hinv
      · intro v hv
        rcases List.mem_append.1 hv with h | h
        · exact hinv v h
        · rw [List.mem_singleton.1 h]
          exact ⟨Iff.rfl, fun hc => absurd hc Bool.false_ne_true⟩
  · unfold login
    cases hauth : authenticate_user vp db username password with
    | none => exact hinv
    | some u => exact hinv
  · unfold verify_email
    split
    · exact hinv
    · split
      · exact hinv
      · split
        · exact hinv
        · split
          · exact hinv
          · split
            · split
              · exact hinv
              · exact storeInv_updateUser hinv ⟨Iff.rfl, fun _ => ⟨rfl, rfl⟩⟩
            · exact storeInv_updateUser hinv ⟨Iff.rfl, fun _ => ⟨rfl, rfl⟩⟩
  · unfold resend_verification_email
    split
    · exact hinv
    · split
      · exact hinv
      · rename_i hverif
        exact storeInv_updateUser hinv ⟨Iff.rfl, fun h => absurd h hverif⟩

/-- C4 witness: the preservation theorem applied to the empty store, which
satisfies the invariant vacuously. -/
theorem C4_operations_preserve_invariant_witness :
    storeInv (register "dan@x.com" "dan" "password1" hashFn 3 [] 0 "sk").2
    ∧ storeInv (login (fun _ _ => false) [] "dan" "password1" 0 "sk").2
    ∧ storeInv (verify_email (jwtEncode [] "sk") [] 0 "sk").2
    ∧ storeInv (resend_verification_email "dan@x.com" [] 0 "sk").2 :=
  C4_operations_preserve_invariant (fun _ _ => false) hashFn []
    "dan@x.com" "dan" "password1" 3 (jwtEncode [] "sk") 0 "sk"
    (by intro u hu; exact absurd hu (List.not_mem_nil u))

end Bons
namespace Bons

/-- Registration of `alice` on the empty store at time 0; the issued
verification token is stored on her record. -/
def aliceReg : ApiResult User × Store :=
  register "alice@x.com" "alice" "password123" hashFn 1 [] 0 "sk"

/-- The store after `aliceReg`. -/
def aliceDb : Store := aliceReg.2

/-- The first verification token issued to `alice` (time 0). -/
def aliceTok1 : Token := create_verification_token 1 "alice@x.com" 0 "sk"

/-- A resend at time 10, which issues a second token and overwrites the
stored one. -/
def aliceResend : ApiResult MessageResponse × Store :=
  resend_verification_email "alice@x.com" aliceDb 10 "sk"

/-- The store after the resend. -/
def aliceDb2 : Store := aliceResend.2

/-- C1 counterexample: after a resend has overwritten the stored token,
consuming the first token — whose embedded expiry (86400) has not elapsed at
time 20 — succeeds and verifies the account instead of being rejected with
TokenMismatch: `verify_email` never compares the presented token with the
token string stored on the User record. -/
theorem C1_counterexample :
    (∀ u ∈ aliceDb, u.verification_token = some aliceTok1)
    ∧ (∀ u ∈ aliceDb2, u.verification_token ≠ some aliceTok1)
    ∧ getClaim aliceTok1.claims "exp" = some (JValue.num 86400)
    ∧ (verify_email aliceTok1 aliceDb2 20 "sk").1
        = ApiResult.ok
            { message := "Email verified successfully! You can now use all features."
              success := true }
    ∧ (∀ u ∈ (verify_email aliceTok1 aliceDb2 20 "sk").2,
        u.email_verified = true) := by
  decide

/-- C1 amended: issuing a second verification token does not invalidate the
first — after register at `t0` and resend at `t1`, consuming the first token
at `t2` still succeeds whenever neither the first token's embedded expiry
(`t0 + 24h`) nor the stored expiry written by the resend (`t1 + 24h`) has
passed, because `verify_email` checks only signature, embedded expiry, kind
tag, email match, and the stored expiry timestamp — never equality with the
stored token string. -/
theorem C1_reissue_does_not_invalidate
    (email username password : String) (hashPw : String → String)
    (newId : Int) (t0 t1 t2 : Int) (secret : String)
    (hA : ¬ (t0 + verification_token_expire_hours * 3600 < t2))
    (hB : ¬ (t1 + verification_token_expire_hours * 3600 < t2)) :
    (verify_email (create_verification_token newId email t0 secret)
        (resend_verification_email email
          (register email username password hashPw newId [] t0 secret).2
          t1 secret).2
        t2 secret).1
      = ApiResult.ok
          { message := "Email verified successfully! You can now use all features."
            success := true } := by
  simp [register, get_user_by_username, get_user_by_email,
        resend_verification_email, verify_email, verify_verification_token,
        create_verification_token, jwtDecode, jwtEncode, validate_claims,
        validate_iat, validate_nbf, validate_exp, validate_aud, validate_sub,
        validate_jti, validate_at_hash, intable, getClaim,
        lookup_embedded_user, get_user_by_id, updateUser, hA, hB]

/-- C1 amended witness: the theorem applied at register time 0, resend time
10, and consume time 20, both expiries unelapsed. -/
theorem C1_reissue_does_not_invalidate_witness :
    (verify_email (create_verification_token 1 "alice@x.com" 0 "sk")
        (resend_verification_email "alice@x.com"
          (register "alice@x.com" "alice" "password123" hashFn 1 [] 0 "sk").2
          10 "sk").2
        20 "sk").1
      = ApiResult.ok
          { message := "Email verified successfully! You can now use all features."
            success := true } :=
  C1_reissue_does_not_invalidate "alice@x.com" "alice" "password123" hashFn
    1 0 10 20 "sk" (by decide) (by decide)

end Bons
